import Mathlib

/-!
Verification of the CASM VASP relaxation status controller
(`casm/vaspwrapper/relax.py`, class `Relax`).

The controller is embedded as pure Lean functions over an explicit
environment describing what the external collaborators (PBS job database,
VASP relaxation engine, vasprun.xml convergence reader, OS environment)
report, and each public operation is modelled as a function returning the
ordered list of externally visible effects it performs together with an
optional raised error (`VaspWrapperError` messages).
-/

namespace CasmRelax

/-- One record from the PBS job database (`pbs.JobDB`), as consulted by
`Relax.submit`: `jobstatus` is the queue state (values like "C", "Q", "R"),
`taskstatus` the task bookkeeping state (values like "Incomplete"). -/
structure JobRecord where
  jobid : Nat
  jobstatus : String
  taskstatus : String
deriving DecidableEq

/-- The environment a single controller invocation observes: what the PBS
job database returns for this calculation directory, what the relaxation
engine reports from `status()` and from `run()`, whether
`properties.calc.json` already exists, and the electronic-step counts and
`NELM` limits that `report_properties` reads from `vasprun.xml` for the last
relaxation run and for `run.final`. -/
structure Env where
  jobRecords : List JobRecord
  initialStatus : String × String
  runResult : String × String
  propertiesFileExists : Bool
  lastRunESteps : Nat
  lastRunNelm : Nat
  finalRunESteps : Nat
  finalRunNelm : Nat
  auto : Bool
  calctype : String
  numAtoms : Nat
  atomPerProc : Nat
  ppn : Nat
deriving DecidableEq

/-- Externally visible effects performed by the controller, in program
order. `reportStatus` is a write of `status.json`; `writeSettingsCopy` is
the local `relax.json` copy written on run-limit exhaustion (path relative
to the configuration directory); `submitJob` carries the computed node
count; `completeJob`/`errorJob` are the best-effort PBS bookkeeping calls. -/
inductive Effect where
  | reportStatus (status : String) (failureType : Option String)
  | setup
  | completeJob (jobid : Option Nat)
  | errorJob
  | submitJob (nodes : Nat)
  | writeSettingsCopy (path : List String)
  | writeProperties
deriving DecidableEq

/-- `Relax.report_properties`: checks electronic convergence of the last
relaxation run (`len(vrun.all_e_0[-1]) >= vrun.nelm` means failure), then of
`run.final`; on either failure reports `failed`/`electronic_convergence`
and writes nothing else; otherwise reports `complete` and then writes
`properties.calc.json`. -/
def report_properties (env : Env) : List Effect :=
  if env.lastRunNelm ≤ env.lastRunESteps then
    [Effect.reportStatus "failed" (some "electronic_convergence")]
  else if env.finalRunNelm ≤ env.finalRunESteps then
    [Effect.reportStatus "failed" (some "electronic_convergence")]
  else
    [Effect.reportStatus "complete" none, Effect.writeProperties]

/-- Node count computed by `Relax.submit`:
`int(math.ceil(float(N)/float(settings["atom_per_proc"])/float(settings["ppn"])))`,
in exact rational arithmetic. -/
def nodesFor (numAtoms atomPerProc ppn : Nat) : Nat :=
  Nat.ceil ((numAtoms : ℚ) / (atomPerProc : ℚ) / (ppn : ℚ))

/-- `Relax.run`: queries the engine status; on `complete` marks the job
complete (best effort, when `auto`) and reports properties; on
`not_converging` reports `failed`/`run_limit` and returns; on `incomplete`
optionally performs setup, reports `started`, invokes the engine run step
and dispatches on the returned status (`not_converging` additionally writes
a local settings copy; anything other than `not_converging`/`complete`
reports `failed`/`unknown` and raises); any other initial status reports
`failed`/`unknown` and raises. Returns the effect trace and the raised
error message, if any. -/
def Relax.run (env : Env) : List Effect × Option String :=
  let status := env.initialStatus.1
  let task := env.initialStatus.2
  if status = "complete" then
    ((if env.auto then [Effect.completeJob none] else []) ++ report_properties env, none)
  else if status = "not_converging" then
    ([Effect.reportStatus "failed" (some "run_limit")], none)
  else if status = "incomplete" then
    let pre : List Effect :=
      (if task = "setup" then [Effect.setup] else []) ++ [Effect.reportStatus "started" none]
    let status2 := env.runResult.1
    let task2 := env.runResult.2
    if status2 = "not_converging" then
      (pre ++ (if env.auto then [Effect.errorJob] else []) ++
        [Effect.reportStatus "failed" (some "run_limit"),
         Effect.writeSettingsCopy ["settings", env.calctype, "relax.json"]], none)
    else if status2 = "complete" then
      (pre ++ (if env.auto then [Effect.completeJob none] else []) ++ report_properties env,
       none)
    else
      (pre ++ [Effect.reportStatus "failed" (some "unknown")],
       some ("vasp relaxation complete with unexpected status: " ++ status2 ++
             " and task: " ++ task2))
  else
    ([Effect.reportStatus "failed" (some "unknown")],
     some ("unexpected relaxation status: " ++ status ++ " and task: " ++ task))

/-- `Relax.submit`: first returns immediately (no effects) if the job
database holds any job for this run directory whose queue state is not "C";
then dispatches on the engine status: `complete` marks incomplete-task jobs
complete (when `auto`) and reports properties when `properties.calc.json`
is absent; `not_converging` returns with no effects; any status other than
`incomplete` raises; otherwise submits one PBS job with the computed node
count and reports `submitted`. -/
def Relax.submit (env : Env) : List Effect × Option String :=
  if env.jobRecords.any (fun j => j.jobstatus ≠ "C") then
    ([], none)
  else
    let status := env.initialStatus.1
    let task := env.initialStatus.2
    if status = "complete" then
      ((if env.auto then
          (env.jobRecords.filter (fun j => j.taskstatus = "Incomplete")).map
            (fun j => Effect.completeJob (some j.jobid))
        else []) ++
       (if env.propertiesFileExists then [] else report_properties env), none)
    else if status = "not_converging" then
      ([], none)
    else if status ≠ "incomplete" then
      ([], some ("unexpected relaxation status: " ++ status ++ " and task: " ++ task))
    else
      ([Effect.submitJob (nodesFor env.numAtoms env.atomPerProc env.ppn),
        Effect.reportStatus "submitted" none], none)

/-- Hex digit for `\u00XX` escapes. -/
def hexDigit (n : Nat) : Char :=
  if n < 10 then Char.ofNat (48 + n) else Char.ofNat (87 + n)

/-- JSON string escaping as performed by the serializer on string values. -/
def jsonEscapeChar (c : Char) : String :=
  if c = '"' then "\\\""
  else if c = '\\' then "\\\\"
  else if c = '\n' then "\\n"
  else if c = '\t' then "\\t"
  else if c = '\r' then "\\r"
  else if c.toNat < 32 then
    "\\u00" ++ String.mk [hexDigit (c.toNat / 16), hexDigit (c.toNat % 16)]
  else String.singleton c

/-- JSON string escaping lifted to strings. -/
def jsonEscape (s : String) : String :=
  String.join (s.data.map jsonEscapeChar)

/-- Modelled from the spec: the serialized `status.json` bytes. The
serializer class `casm.NoIndentEncoder` is not part of the sources under
verification; the spec states the record is written sorted and
pretty-printed with stable key order ("Sorted, pretty-printed (stable key
order) for diff-friendliness"), matching
`json.dumps(output, indent=4, sort_keys=True)` with keys
"failure_type" < "status". -/
def statusJson (status : String) (failureType : Option String) : String :=
  match failureType with
  | none =>
    "\x7b\n    \"status\": \"" ++ jsonEscape status ++ "\"\n\x7d"
  | some f =>
    "\x7b\n    \"failure_type\": \"" ++ jsonEscape f ++ "\",\n    \"status\": \"" ++
      jsonEscape status ++ "\"\n\x7d"

/-- `Relax.report_status`: opens `status.json` in mode "w" (truncating any
previous content) and writes the serialized record; the resulting file
content is a function of the arguments alone. `prev` is the file content
before the call (`none` when the file does not exist). -/
def report_status_file (status : String) (failureType : Option String)
    (_prev : Option String) : String :=
  statusJson status failureType

/-- Folding step recording the most recent `status.json` write. -/
def statusAcc (acc : Option (String × Option String)) (e : Effect) :
    Option (String × Option String) :=
  match e with
  | Effect.reportStatus s f => some (s, f)
  | _ => acc

/-- The last `status.json` record written during an effect trace. -/
def lastStatusWrite (tr : List Effect) : Option (String × Option String) :=
  tr.foldl statusAcc none

/-- The `status.json` content at the end of an effect trace (`none` when the
trace never wrote it). -/
def finalStatusFile (tr : List Effect) : Option String :=
  (lastStatusWrite tr).map (fun p => statusJson p.1 p.2)

/-- Count of `report_status("failed", "unknown")` calls in a trace. -/
def countFailedUnknown (tr : List Effect) : Nat :=
  tr.countP (fun e => e = Effect.reportStatus "failed" (some "unknown"))

/-- Count of PBS job submissions in a trace. -/
def countSubmitJobs (tr : List Effect) : Nat :=
  tr.countP (fun e => match e with | Effect.submitJob _ => true | _ => false)

/-- Whether a trace writes the local settings copy. -/
def writesSettingsCopy (tr : List Effect) : Bool :=
  tr.any (fun e => match e with | Effect.writeSettingsCopy _ => true | _ => false)

/-- A status-record write is within the persisted enumeration claimed by the
data model, extended with the transient "started" marker, and carries a
failure type exactly when the status is "failed". -/
def statusWriteOk (e : Effect) : Bool :=
  match e with
  | Effect.reportStatus s f =>
    decide (s = "submitted" ∨ s = "started" ∨ s = "complete" ∨ s = "failed") &&
      (f.isSome == decide (s = "failed"))
  | _ => true

/-- A status-record write restricted to the spec's four-value enumeration
`not_submitted`/`submitted`/`complete`/`failed`, with the failure type
present exactly when the status is "failed". -/
def statusWriteFourEnumOk (e : Effect) : Bool :=
  match e with
  | Effect.reportStatus s f =>
    decide (s = "not_submitted" ∨ s = "submitted" ∨ s = "complete" ∨ s = "failed") &&
      (f.isSome == decide (s = "failed"))
  | _ => true

end CasmRelax

namespace CasmSettings

/-- A settings value as stored in the loosely typed settings dictionary:
the Python `None`, a number, or a string (the deferred-resolution sentinels
"CASM_DEFAULT" and "VASP_DEFAULT" are strings). -/
inductive SVal where
  | null
  | num (n : Nat)
  | str (s : String)
deriving DecidableEq

/-- The settings dictionary: `Option.none` means the key is absent. -/
def SettingsMap : Type := String → Option SVal

/-- Update one key of the dictionary (Python item assignment). -/
def mset (m : SettingsMap) (k : String) (v : SVal) : SettingsMap :=
  fun q => if q = k then some v else m q

/-- `if not k in settings: settings[k] = None` for one key. -/
def setDefaultNone (m : SettingsMap) (k : String) : SettingsMap :=
  fun q => if q = k then some ((m k).getD SVal.null) else m q

/-- The six required keys given defaults in `Relax.__init__`. -/
def requiredKeys : List String :=
  ["ncore", "npar", "kpar", "vasp_cmd", "ncpus", "run_limit"]

/-- The tail of `Relax.__init__`: each required key absent from the settings
file is added with value `None`. -/
def ensureRequired (m : SettingsMap) : SettingsMap :=
  requiredKeys.foldl setDefaultNone m

/-- The PBS-related environment variables consulted by
`Relax.run_settings`. -/
structure PBSEnv where
  numNodes : Option Nat
  numPpn : Option Nat
  np : Option Nat
deriving DecidableEq

/-- First block of `Relax.run_settings`: the `npar` sentinels resolve
against `PBS_NUM_NODES` (`CASM_DEFAULT`) or to `None` (`VASP_DEFAULT`). -/
def resolveNpar (e : PBSEnv) (m : SettingsMap) : SettingsMap :=
  if m "npar" = some (SVal.str "CASM_DEFAULT") then
    match e.numNodes with
    | some n => mset m "npar" (SVal.num n)
    | none => mset m "npar" SVal.null
  else if m "npar" = some (SVal.str "VASP_DEFAULT") then
    mset m "npar" SVal.null
  else m

/-- Second block of `Relax.run_settings`: when the resolved `npar` is
`None`, the `ncore` sentinels resolve against `PBS_NUM_PPN`
(`CASM_DEFAULT`) or to 1 (`VASP_DEFAULT`); otherwise `ncore` is forced to
`None`. -/
def resolveNcore (e : PBSEnv) (m : SettingsMap) : SettingsMap :=
  if m "npar" = some SVal.null then
    if m "ncore" = some (SVal.str "CASM_DEFAULT") then
      match e.numPpn with
      | some n => mset m "ncore" (SVal.num n)
      | none => mset m "ncore" SVal.null
    else if m "ncore" = some (SVal.str "VASP_DEFAULT") then
      mset m "ncore" (SVal.num 1)
    else m
  else
    mset m "ncore" SVal.null

/-- Third block of `Relax.run_settings`: `ncpus` resolves against `PBS_NP`
when `None` or `CASM_DEFAULT`. -/
def resolveNcpus (e : PBSEnv) (m : SettingsMap) : SettingsMap :=
  if m "ncpus" = some SVal.null ∨ m "ncpus" = some (SVal.str "CASM_DEFAULT") then
    match e.np with
    | some n => mset m "ncpus" (SVal.num n)
    | none => mset m "ncpus" SVal.null
  else m

/-- Fourth block of `Relax.run_settings`: `run_limit` becomes 10 when
`None` or `CASM_DEFAULT`. -/
def resolveRunLimit (m : SettingsMap) : SettingsMap :=
  if m "run_limit" = some SVal.null ∨ m "run_limit" = some (SVal.str "CASM_DEFAULT") then
    mset m "run_limit" (SVal.num 10)
  else m

/-- `Relax.run_settings`: copies `self.settings` and resolves runtime
defaults on the copy, block by block, in program order. The original map
is not modified (the function returns a new map built from the copy). -/
def run_settings (e : PBSEnv) (m0 : SettingsMap) : SettingsMap :=
  resolveRunLimit (resolveNcpus e (resolveNcore e (resolveNpar e m0)))

/-- The empty settings file: every key absent. -/
def emptyMap : SettingsMap := fun _ => none

/-- An environment supplying none of the PBS variables. -/
def emptyEnv : PBSEnv := ⟨none, none, none⟩

end CasmSettings

namespace CasmReorder

/-- The write loop of `Relax.report_properties`:
`for i, v in enumerate(xs): out[target i] = some v`, performed over an
accumulator list by positional assignment. -/
def writeAll {α : Type} (ps : List (Nat × α)) (acc : List (Option α)) : List (Option α) :=
  ps.foldl (fun a p => a.set p.1 (some p.2)) acc

/-- Atom reordering as performed on `relaxed_forces` and `relaxed_basis`:
starting from `[None for i in range(len(xs))]`, each element `xs[i]` is
written to position `unsort i`. -/
def unsortReorder {α : Type} (unsort : Nat → Nat) (xs : List α) : List (Option α) :=
  writeAll (xs.enum.map (fun p => (unsort p.1, p.2))) (List.replicate xs.length none)

/-- The corresponding sort permutation applied to a reordered list: entry
`j` of the result reads position `unsort j` of the input (the inverse
direction of `unsortReorder`). -/
def sortGather {α : Type} (unsort : Nat → Nat) (ys : List (Option α)) (n : Nat) :
    List (Option α) :=
  (List.range n).map (fun j => ys.getD (unsort j) none)

end CasmReorder

namespace CasmRelax

/-- A baseline concrete environment used to build the concrete scenarios
checked below. -/
def baseEnv : Env :=
  { jobRecords := []
    initialStatus := ("incomplete", "setup")
    runResult := ("complete", "")
    propertiesFileExists := false
    lastRunESteps := 3
    lastRunNelm := 60
    finalRunESteps := 3
    finalRunNelm := 60
    auto := true
    calctype := "calctype.default"
    numAtoms := 5
    atomPerProc := 2
    ppn := 2 }

/-- Concrete environment in which the engine reports a status outside the
defined enumeration at the initial query. -/
def envUnexpected : Env := { baseEnv with initialStatus := ("bogus", "t") }

/-- Concrete environment for the post-run unexpected-status case. -/
def envUnexpectedAfterRun : Env :=
  { baseEnv with initialStatus := ("incomplete", "continue"), runResult := ("weird", "x") }

/-- Concrete environment in which `run()` performs a full successful pass
(incomplete at the initial query, complete after the engine run step). -/
def envStartedThenComplete : Env :=
  { baseEnv with initialStatus := ("incomplete", "continue"), auto := false }

/-- Concrete environment in which the engine reports `not_converging` at
the initial status query of `run()`. -/
def envNotConvergingInitial : Env :=
  { baseEnv with initialStatus := ("not_converging", "continue") }

/-- Concrete environment in which the engine reports `not_converging` as
the result of the engine run step. -/
def envNotConvergingAfterRun : Env :=
  { baseEnv with initialStatus := ("incomplete", "relax"), runResult := ("not_converging", "") }

/-- Concrete environment for the successful finalize scenario: engine
complete, properties file absent, both convergence checks passing. -/
def envCompleteConverged : Env := { baseEnv with initialStatus := ("complete", "") }

/-- Concrete environment with a running PBS job for this calculation
directory. -/
def envActiveJob : Env :=
  { baseEnv with jobRecords := [{ jobid := 42, jobstatus := "R", taskstatus := "Incomplete" }] }

end CasmRelax

namespace CasmReorder

/-- A concrete bijection on [0, 3): 0 to 2, 1 to 0, 2 to 1. -/
def permW : Nat → Nat :=
  fun i => if i = 0 then 2 else if i = 1 then 0 else if i = 2 then 1 else i

end CasmReorder

namespace CasmReorder

theorem writeAll_length {α : Type} (ps : List (Nat × α)) (acc : List (Option α)) :
    (writeAll ps acc).length = acc.length := by
  induction ps generalizing acc with
  | nil => rfl
  | cons p t ih =>
    show (writeAll t (acc.set p.1 (some p.2))).length = acc.length
    rw [ih, List.length_set]

theorem writeAll_getElem?_of_notmem {α : Type} (ps : List (Nat × α)) (acc : List (Option α))
    (j : Nat) (h : ∀ p ∈ ps, p.1 ≠ j) :
    (writeAll ps acc)[j]? = acc[j]? := by
  induction ps generalizing acc with
  | nil => rfl
  | cons p t ih =>
    show (writeAll t (acc.set p.1 (some p.2)))[j]? = acc[j]?
    rw [ih _ (fun q hq => h q (List.mem_cons_of_mem p hq)),
      List.getElem?_set_ne (h p (List.mem_cons_self p t))]

theorem writeAll_getElem?_mem {α : Type} (ps : List (Nat × α)) (acc : List (Option α))
    (j : Nat) (v : α) (hnd : (ps.map Prod.fst).Nodup) (hmem : (j, v) ∈ ps)
    (hj : j < acc.length) :
    (writeAll ps acc)[j]? = some (some v) := by
  induction ps generalizing acc with
  | nil => cases hmem
  | cons p t ih =>
    rw [List.map_cons, List.nodup_cons] at hnd
    rcases List.mem_cons.mp hmem with heq | hmem2
    · subst heq
      show (writeAll t (acc.set j (some v)))[j]? = some (some v)
      rw [writeAll_getElem?_of_notmem t _ j
        (fun q hq hq1 => hnd.1 (List.mem_map.mpr ⟨q, hq, hq1⟩)),
        List.getElem?_set_eq_of_lt _ hj]
    · show (writeAll t (acc.set p.1 (some p.2)))[j]? = some (some v)
      exact ih _ hnd.2 hmem2 (by rw [List.length_set]; exact hj)

theorem unsortReorder_getElem? {α : Type} (unsort : Nat → Nat) (xs : List α) (i : Nat)
    (hi : i < xs.length)
    (hlt : ∀ a, a < xs.length → unsort a < xs.length)
    (hinj : ∀ a b, a < xs.length → b < xs.length → unsort a = unsort b → a = b) :
    (unsortReorder unsort xs)[unsort i]? = some (some (xs.get ⟨i, hi⟩)) := by
  apply writeAll_getElem?_mem
  · have h1 : (xs.enum.map (fun p => (unsort p.1, p.2))).map Prod.fst
        = (List.range xs.length).map unsort := by
      rw [List.map_map]
      have h0 : (Prod.fst ∘ fun p : Nat × α => (unsort p.1, p.2)) = unsort ∘ Prod.fst := rfl
      rw [h0, ← List.map_map, List.enum_map_fst]
    rw [h1]
    exact (List.nodup_range xs.length).map_on
      (fun a ha b hb hab => hinj a b (List.mem_range.mp ha) (List.mem_range.mp hb) hab)
  · exact List.mem_map.mpr ⟨(i, xs.get ⟨i, hi⟩),
      List.mk_mem_enum_iff_getElem?.mpr (List.getElem?_eq_getElem hi), rfl⟩
  · rw [List.length_replicate]
    exact hlt i hi

end CasmReorder

open CasmRelax CasmSettings CasmReorder

/-- C5: for every unsort mapping that is a valid bijection on [0, N),
applying the reordering that `report_properties` performs via `unsort_dict`
to an array of length N and then applying the corresponding sort
permutation reproduces the original array exactly, element for element. -/
theorem c5_unsort_sort_roundtrip {α : Type} (unsort : Nat → Nat) (xs : List α) (n : Nat)
    (hn : xs.length = n)
    (hlt : ∀ i, i < n → unsort i < n)
    (hinj : ∀ i j, i < n → j < n → unsort i = unsort j → i = j) :
    sortGather unsort (unsortReorder unsort xs) n = xs.map some := by
  subst hn
  apply List.ext_getElem
  · simp [sortGather]
  · intro j h1 h2
    have hj : j < xs.length := by
      simpa [sortGather] using h1
    have hkey := unsortReorder_getElem? unsort xs j hj hlt hinj
    simp only [sortGather, List.getElem_map, List.getElem_range]
    rw [List.getD_eq_getElem?_getD, hkey]
    rfl

/-- C5 witness: the round trip at a concrete bijection on [0, 3) and a
concrete array. -/
theorem c5_unsort_sort_roundtrip_witness :
    sortGather permW (unsortReorder permW [10, 20, 30]) 3 = [10, 20, 30].map some :=
  c5_unsort_sort_roundtrip permW [10, 20, 30] 3 rfl (by decide)
    (by intro i j hi hj hp; interval_cases i <;> interval_cases j <;> simp_all [permW])

/-- C1 counterexample: with no existing job and the engine reporting the
out-of-enumeration status "bogus", `submit()` raises the unexpected-status
error but performs zero `report_status("failed", "unknown")` calls, so the
claim that both `run()` and `submit()` report before raising is false. -/
theorem c1_submit_raises_without_report :
    (Relax.submit envUnexpected).2.isSome = true ∧
    countFailedUnknown (Relax.submit envUnexpected).1 = 0 := by
  decide

/-- C1 (amended): when the engine status is outside
complete/not_converging/incomplete, `run()` raises the unexpected-status
error after calling `report_status("failed", "unknown")` exactly once, both
at the initial query and (for any result other than
not_converging/complete) after the engine run step, while `submit()` raises
the error without calling `report_status` at all. -/
theorem c1_unexpected_status_behavior (env : Env)
    (h1 : env.initialStatus.1 ≠ "complete")
    (h2 : env.initialStatus.1 ≠ "not_converging")
    (h3 : env.initialStatus.1 ≠ "incomplete")
    (hjobs : env.jobRecords.all (fun j => j.jobstatus == "C") = true) :
    ((Relax.run env).2.isSome = true ∧ countFailedUnknown (Relax.run env).1 = 1) ∧
    ((Relax.submit env).2.isSome = true ∧ countFailedUnknown (Relax.submit env).1 = 0) ∧
    (∀ env2 : Env, env2.initialStatus.1 = "incomplete" →
      env2.runResult.1 ≠ "not_converging" → env2.runResult.1 ≠ "complete" →
      (Relax.run env2).2.isSome = true ∧ countFailedUnknown (Relax.run env2).1 = 1) := by
  have hc : env.jobRecords.any (fun j => j.jobstatus ≠ "C") = false := by
    rw [List.any_eq_false]
    intro j hj
    simpa using List.all_eq_true.mp hjobs j hj
  refine ⟨?_, ?_, ?_⟩
  · simp only [Relax.run, h1, h2, h3, if_false, ite_false]
    simp [countFailedUnknown]
  · simp only [Relax.submit, hc, Bool.false_eq_true, if_false, h1, h2, h3, ite_false]
    rw [if_pos h3]
    simp [countFailedUnknown]
  · intro env2 g1 g2 g3
    have g4 : env2.initialStatus.1 ≠ "complete" := by rw [g1]; decide
    have g5 : env2.initialStatus.1 ≠ "not_converging" := by rw [g1]; decide
    simp only [Relax.run, g1, g2, g3, g4, g5, if_false, ite_false, if_true, ite_true]
    constructor
    · rfl
    · simp [countFailedUnknown, List.countP_append, List.countP_cons]

/-- C1 witness: the amended behavior demonstrated at concrete inputs (an
unexpected initial status, and an unexpected status after the run step). -/
theorem c1_unexpected_status_behavior_witness :
    (((Relax.run envUnexpected).2.isSome = true ∧
        countFailedUnknown (Relax.run envUnexpected).1 = 1) ∧
      ((Relax.submit envUnexpected).2.isSome = true ∧
        countFailedUnknown (Relax.submit envUnexpected).1 = 0)) ∧
    ((Relax.run envUnexpectedAfterRun).2.isSome = true ∧
      countFailedUnknown (Relax.run envUnexpectedAfterRun).1 = 1) :=
  ⟨⟨(c1_unexpected_status_behavior envUnexpected (by decide) (by decide) (by decide)
        (by decide)).1,
    (c1_unexpected_status_behavior envUnexpected (by decide) (by decide) (by decide)
        (by decide)).2.1⟩,
   (c1_unexpected_status_behavior envUnexpected (by decide) (by decide) (by decide)
        (by decide)).2.2 envUnexpectedAfterRun rfl (by decide) (by decide)⟩

/-- C2 counterexample: the `run()` pass over an incomplete configuration
writes the status record "started", a value outside the persisted
four-value enumeration, so the claim that every written status is one of
not_submitted/submitted/complete/failed is false. -/
theorem c2_started_outside_four_enum :
    ((Relax.run envStartedThenComplete).1.all statusWriteFourEnumOk) = false := by
  decide

/-- C2 (amended): every status value written into the persisted status
record by `run()` or `submit()` (including the calls made through
`report_properties`) is one of submitted, started, complete, failed, and
the failure_type field is present in the record if and only if the status
is failed. -/
theorem c2_status_writes_in_extended_enum (env : Env) :
    ((Relax.run env).1.all statusWriteOk) = true ∧
    ((Relax.submit env).1.all statusWriteOk) = true := by
  constructor <;>
    (simp only [Relax.run, Relax.submit, report_properties]
     split_ifs <;>
       simp [statusWriteOk, List.all_append, List.all_cons, List.all_nil, List.all_map,
         List.all_filter, List.all_eq_true] <;>
       (intro x y hy hts hx; subst hx; rfl))

/-- C3 counterexample: when the engine reports `not_converging` at the
initial status query of `run()`, the status file ends as failed/run_limit
but no local settings copy is written, so the claim that the copy is
written in both cases is false. -/
theorem c3_initial_case_writes_no_settings_copy :
    envNotConvergingInitial.initialStatus.1 = "not_converging" ∧
    finalStatusFile (Relax.run envNotConvergingInitial).1 =
      some (statusJson "failed" (some "run_limit")) ∧
    writesSettingsCopy (Relax.run envNotConvergingInitial).1 = false := by
  decide

/-- C3 (amended): whenever the engine reports `not_converging` to `run()`,
`run()` ends with the status file containing failed/run_limit; the local
settings copy at configdir/settings/calctype/relax.json is written exactly
in the case where `not_converging` is the result returned by the engine run
step, not at the initial status query. -/
theorem c3_not_converging_outcomes (env : Env) :
    (env.initialStatus.1 = "not_converging" →
      (Relax.run env).1 = [Effect.reportStatus "failed" (some "run_limit")] ∧
      finalStatusFile (Relax.run env).1 = some (statusJson "failed" (some "run_limit")) ∧
      writesSettingsCopy (Relax.run env).1 = false ∧
      (Relax.run env).2 = none) ∧
    (env.initialStatus.1 = "incomplete" → env.runResult.1 = "not_converging" →
      finalStatusFile (Relax.run env).1 = some (statusJson "failed" (some "run_limit")) ∧
      Effect.writeSettingsCopy ["settings", env.calctype, "relax.json"] ∈ (Relax.run env).1 ∧
      (Relax.run env).2 = none) := by
  constructor
  · intro h
    have h1 : env.initialStatus.1 ≠ "complete" := by rw [h]; decide
    simp only [Relax.run]
    rw [if_neg h1, if_pos h]
    refine ⟨rfl, rfl, rfl, rfl⟩
  · intro h hr
    have h1 : env.initialStatus.1 ≠ "complete" := by rw [h]; decide
    have h2 : env.initialStatus.1 ≠ "not_converging" := by rw [h]; decide
    simp only [Relax.run]
    rw [if_neg h1, if_neg h2, if_pos h, if_pos hr]
    refine ⟨?_, ?_, rfl⟩
    · split_ifs <;> rfl
    · split_ifs <;> simp

/-- C3 witness: both cases of the amended claim at concrete environments. -/
theorem c3_not_converging_outcomes_witness :
    ((Relax.run envNotConvergingInitial).1 =
        [Effect.reportStatus "failed" (some "run_limit")] ∧
      finalStatusFile (Relax.run envNotConvergingInitial).1 =
        some (statusJson "failed" (some "run_limit")) ∧
      writesSettingsCopy (Relax.run envNotConvergingInitial).1 = false ∧
      (Relax.run envNotConvergingInitial).2 = none) ∧
    (finalStatusFile (Relax.run envNotConvergingAfterRun).1 =
        some (statusJson "failed" (some "run_limit")) ∧
      Effect.writeSettingsCopy ["settings", envNotConvergingAfterRun.calctype, "relax.json"]
        ∈ (Relax.run envNotConvergingAfterRun).1 ∧
      (Relax.run envNotConvergingAfterRun).2 = none) :=
  ⟨(c3_not_converging_outcomes envNotConvergingInitial).1 rfl,
   (c3_not_converging_outcomes envNotConvergingAfterRun).2 rfl rfl⟩

/-- C4: when no non-completed job exists, the engine reports status
complete, and the properties output file does not exist, `submit()` runs
the finalize path; if both the last relaxation run and the final run pass
the electronic-convergence check, the status file ends as complete (with no
failure type) and the properties file is written, with no error raised. -/
theorem c4_complete_finalize_writes_properties (env : Env)
    (hjobs : env.jobRecords.all (fun j => j.jobstatus == "C") = true)
    (h : env.initialStatus.1 = "complete")
    (hp : env.propertiesFileExists = false)
    (hlast : env.lastRunESteps < env.lastRunNelm)
    (hfinal : env.finalRunESteps < env.finalRunNelm) :
    finalStatusFile (Relax.submit env).1 = some (statusJson "complete" none) ∧
    Effect.writeProperties ∈ (Relax.submit env).1 ∧
    (Relax.submit env).2 = none := by
  have hc : env.jobRecords.any (fun j => j.jobstatus ≠ "C") = false := by
    rw [List.any_eq_false]
    intro j hj
    simpa using List.all_eq_true.mp hjobs j hj
  have hl : ¬ env.lastRunNelm ≤ env.lastRunESteps := Nat.not_le.mpr hlast
  have hf : ¬ env.finalRunNelm ≤ env.finalRunESteps := Nat.not_le.mpr hfinal
  simp only [Relax.submit, report_properties]
  rw [if_pos h]
  simp only [hc, Bool.false_eq_true, if_false, hp, ite_false]
  rw [if_neg hl, if_neg hf]
  refine ⟨?_, ?_, ?_⟩
  · simp only [finalStatusFile, lastStatusWrite]
    split_ifs
    · rw [List.foldl_append]
      generalize List.foldl statusAcc none (List.map _ _) = acc
      rfl
    · rfl
  · split_ifs <;> simp
  · trivial

/-- C4 witness: the successful finalize scenario at a concrete
environment. -/
theorem c4_complete_finalize_writes_properties_witness :
    finalStatusFile (Relax.submit envCompleteConverged).1 =
      some (statusJson "complete" none) ∧
    Effect.writeProperties ∈ (Relax.submit envCompleteConverged).1 ∧
    (Relax.submit envCompleteConverged).2 = none :=
  c4_complete_finalize_writes_properties envCompleteConverged (by decide) rfl rfl
    (by decide) (by decide)

/-- C6: `report_status(s, f)` writes a status file whose bytes are a
deterministic function of the arguments alone (stable key order, fixed
pretty-printing), so two calls with identical arguments produce
byte-identical files: the second write, performed over the file content
left by the first, equals the first, and the written bytes do not depend on
the prior file content at all. -/
theorem c6_report_status_idempotent (s : String) (f : Option String)
    (p q : Option String) :
    report_status_file s f (some (report_status_file s f p)) = report_status_file s f p ∧
    report_status_file s f p = report_status_file s f q := ⟨rfl, rfl⟩

/-- C7: if `submit()` finds an existing job record for the calculation
directory whose queue state is anything other than completed ("C"), it
submits no new job and returns without writing a status file or performing
any other effect, and without raising. -/
theorem c7_active_job_no_side_effects (env : Env)
    (h : ∃ j ∈ env.jobRecords, j.jobstatus ≠ "C") :
    Relax.submit env = ([], none) := by
  have hc : env.jobRecords.any (fun j => j.jobstatus ≠ "C") = true := by
    rcases h with ⟨j, hj, hne⟩
    exact List.any_eq_true.mpr ⟨j, hj, by simpa using hne⟩
  simp only [Relax.submit, hc, if_true]

/-- C7 witness: a concrete environment with a running ("R") job. -/
theorem c7_active_job_no_side_effects_witness :
    Relax.submit envActiveJob = ([], none) :=
  c7_active_job_no_side_effects envActiveJob (by decide)

/-- C8: when `submit()` observes no active job and the engine reports
status incomplete, its effect trace is exactly one batch-job submission
whose node count is the ceiling of N / atom_per_proc / ppn, followed by a
status record write of submitted; no error is raised. -/
theorem c8_submit_incomplete_one_job (env : Env)
    (hjobs : env.jobRecords.all (fun j => j.jobstatus == "C") = true)
    (h : env.initialStatus.1 = "incomplete") :
    (Relax.submit env).1 =
      [Effect.submitJob (nodesFor env.numAtoms env.atomPerProc env.ppn),
       Effect.reportStatus "submitted" none] ∧
    countSubmitJobs (Relax.submit env).1 = 1 ∧
    lastStatusWrite (Relax.submit env).1 = some ("submitted", none) ∧
    (Relax.submit env).2 = none := by
  have hc : env.jobRecords.any (fun j => j.jobstatus ≠ "C") = false := by
    rw [List.any_eq_false]
    intro j hj
    simpa using List.all_eq_true.mp hjobs j hj
  have h1 : env.initialStatus.1 ≠ "complete" := by rw [h]; decide
  have h2 : env.initialStatus.1 ≠ "not_converging" := by rw [h]; decide
  simp only [Relax.submit, hc, Bool.false_eq_true, if_false, h1, h2, h, if_true]
  refine ⟨rfl, rfl, rfl, rfl⟩

/-- C8 witness: at a concrete environment with 5 atoms, atom_per_proc 2 and
ppn 2, one job is submitted and the computed node count evaluates to
ceil(5/4) = 2. -/
theorem c8_submit_incomplete_one_job_witness :
    ((Relax.submit baseEnv).1 =
        [Effect.submitJob (nodesFor baseEnv.numAtoms baseEnv.atomPerProc baseEnv.ppn),
         Effect.reportStatus "submitted" none] ∧
      countSubmitJobs (Relax.submit baseEnv).1 = 1 ∧
      lastStatusWrite (Relax.submit baseEnv).1 = some ("submitted", none) ∧
      (Relax.submit baseEnv).2 = none) ∧
    nodesFor 5 2 2 = 2 :=
  ⟨c8_submit_incomplete_one_job baseEnv (by decide) rfl,
   by
    unfold nodesFor
    have h : ((5 : Nat) : ℚ) / ((2 : Nat) : ℚ) / ((2 : Nat) : ℚ) = 5 / 4 := by norm_num
    rw [h, Nat.ceil_eq_iff (by norm_num)]
    norm_num⟩

namespace CasmSettings

theorem mset_self (m : SettingsMap) (k : String) (v : SVal) : mset m k v k = some v := by
  simp [mset]

theorem mset_ne (m : SettingsMap) (k : String) (v : SVal) (q : String) (h : q ≠ k) :
    mset m k v q = m q := by
  simp [mset, h]

theorem resolveNpar_other (e : PBSEnv) (m : SettingsMap) (q : String) (h : q ≠ "npar") :
    resolveNpar e m q = m q := by
  unfold resolveNpar
  split_ifs <;> first
    | rfl
    | (cases e.numNodes <;> simp [mset_ne _ _ _ _ h])

theorem resolveNcore_other (e : PBSEnv) (m : SettingsMap) (q : String) (h : q ≠ "ncore") :
    resolveNcore e m q = m q := by
  unfold resolveNcore
  split_ifs <;> first
    | rfl
    | (cases e.numPpn <;> simp [mset_ne _ _ _ _ h])

theorem resolveNcpus_other (e : PBSEnv) (m : SettingsMap) (q : String) (h : q ≠ "ncpus") :
    resolveNcpus e m q = m q := by
  unfold resolveNcpus
  split_ifs <;> first
    | rfl
    | (cases e.np <;> simp [mset_ne _ _ _ _ h])

theorem resolveRunLimit_other (m : SettingsMap) (q : String) (h : q ≠ "run_limit") :
    resolveRunLimit m q = m q := by
  unfold resolveRunLimit
  split_ifs <;> first
    | rfl
    | exact mset_ne _ _ _ _ h

theorem resolveNpar_isSome (e : PBSEnv) (m : SettingsMap) (k : String)
    (h : (m k).isSome = true) : ((resolveNpar e m) k).isSome = true := by
  by_cases hq : k = "npar"
  · subst hq
    unfold resolveNpar
    split_ifs <;> first
      | (cases e.numNodes <;> simp [mset_self])
      | simpa
  · rw [resolveNpar_other _ _ _ hq]; exact h

theorem resolveNcore_isSome (e : PBSEnv) (m : SettingsMap) (k : String)
    (h : (m k).isSome = true) : ((resolveNcore e m) k).isSome = true := by
  by_cases hq : k = "ncore"
  · subst hq
    unfold resolveNcore
    split_ifs <;> first
      | (cases e.numPpn <;> simp [mset_self])
      | simp [mset_self]
      | simpa
  · rw [resolveNcore_other _ _ _ hq]; exact h

theorem resolveNcpus_isSome (e : PBSEnv) (m : SettingsMap) (k : String)
    (h : (m k).isSome = true) : ((resolveNcpus e m) k).isSome = true := by
  by_cases hq : k = "ncpus"
  · subst hq
    unfold resolveNcpus
    split_ifs <;> first
      | (cases e.np <;> simp [mset_self])
      | simpa
  · rw [resolveNcpus_other _ _ _ hq]; exact h

theorem resolveRunLimit_isSome (m : SettingsMap) (k : String)
    (h : (m k).isSome = true) : ((resolveRunLimit m) k).isSome = true := by
  by_cases hq : k = "run_limit"
  · subst hq
    unfold resolveRunLimit
    split_ifs <;> first
      | simp [mset_self]
      | simpa
  · rw [resolveRunLimit_other _ _ hq]; exact h

theorem ensureRequired_npar (m : SettingsMap) :
    ensureRequired m "npar" = some ((m "npar").getD SVal.null) := by
  simp [ensureRequired, requiredKeys, setDefaultNone]

theorem ensureRequired_ncore (m : SettingsMap) :
    ensureRequired m "ncore" = some ((m "ncore").getD SVal.null) := by
  simp [ensureRequired, requiredKeys, setDefaultNone]

theorem ensureRequired_kpar (m : SettingsMap) :
    ensureRequired m "kpar" = some ((m "kpar").getD SVal.null) := by
  simp [ensureRequired, requiredKeys, setDefaultNone]

theorem ensureRequired_vasp_cmd (m : SettingsMap) :
    ensureRequired m "vasp_cmd" = some ((m "vasp_cmd").getD SVal.null) := by
  simp [ensureRequired, requiredKeys, setDefaultNone]

theorem ensureRequired_ncpus (m : SettingsMap) :
    ensureRequired m "ncpus" = some ((m "ncpus").getD SVal.null) := by
  simp [ensureRequired, requiredKeys, setDefaultNone]

theorem ensureRequired_run_limit (m : SettingsMap) :
    ensureRequired m "run_limit" = some ((m "run_limit").getD SVal.null) := by
  simp [ensureRequired, requiredKeys, setDefaultNone]

end CasmSettings

/-- C9 counterexample: with an empty settings file and none of the PBS
environment variables set, the resolved run_limit is the concrete value 10,
not an unset value, so the claim that every required key defaults to an
unset value is false. -/
theorem c9_run_limit_defaults_to_ten :
    run_settings emptyEnv (ensureRequired emptyMap) "run_limit" = some (SVal.num 10) ∧
    some (SVal.num 10) ≠ some SVal.null := by
  decide

/-- C9 (amended): after settings resolution the six required keys ncore,
npar, kpar, vasp_cmd, ncpus, run_limit are always present in the settings
mapping; when neither the settings file nor the environment supplies a
value, ncore, npar, kpar, vasp_cmd and ncpus default to the unset value
None, while run_limit defaults to 10. -/
theorem c9_required_keys_present_defaults (e : PBSEnv) (m : SettingsMap) :
    (∀ k, k ∈ requiredKeys → (run_settings e (ensureRequired m) k).isSome = true) ∧
    (m "npar" = none → run_settings e (ensureRequired m) "npar" = some SVal.null) ∧
    (m "ncore" = none → run_settings e (ensureRequired m) "ncore" = some SVal.null) ∧
    (m "kpar" = none → run_settings e (ensureRequired m) "kpar" = some SVal.null) ∧
    (m "vasp_cmd" = none → run_settings e (ensureRequired m) "vasp_cmd" = some SVal.null) ∧
    (m "ncpus" = none → e.np = none →
      run_settings e (ensureRequired m) "ncpus" = some SVal.null) ∧
    (m "run_limit" = none →
      run_settings e (ensureRequired m) "run_limit" = some (SVal.num 10)) := by
  have hreq : ∀ k, k ∈ requiredKeys → (ensureRequired m k).isSome = true := by
    intro k hk
    simp only [requiredKeys, List.mem_cons, List.mem_singleton] at hk
    rcases hk with rfl | rfl | rfl | rfl | rfl | (rfl | h)
    · rw [ensureRequired_ncore]; rfl
    · rw [ensureRequired_npar]; rfl
    · rw [ensureRequired_kpar]; rfl
    · rw [ensureRequired_vasp_cmd]; rfl
    · rw [ensureRequired_ncpus]; rfl
    · rw [ensureRequired_run_limit]; rfl
    · cases h
  refine ⟨?_, ?_, ?_, ?_, ?_, ?_, ?_⟩
  · intro k hk
    exact resolveRunLimit_isSome _ _
      (resolveNcpus_isSome _ _ _
        (resolveNcore_isSome _ _ _ (resolveNpar_isSome _ _ _ (hreq k hk))))
  · intro h
    have h0 : ensureRequired m "npar" = some SVal.null := by rw [ensureRequired_npar, h]; rfl
    have h1 : resolveNpar e (ensureRequired m) "npar" = some SVal.null := by
      unfold resolveNpar
      rw [h0]
      split_ifs with hh1 hh2
      · cases hh1
      · cases hh2
      · exact h0
    unfold run_settings
    rw [resolveRunLimit_other _ _ (by decide), resolveNcpus_other _ _ _ (by decide),
      resolveNcore_other _ _ _ (by decide), h1]
  · intro h
    have h0 : ensureRequired m "ncore" = some SVal.null := by
      rw [ensureRequired_ncore, h]; rfl
    have h1 : resolveNpar e (ensureRequired m) "ncore" = some SVal.null := by
      rw [resolveNpar_other _ _ _ (by decide)]; exact h0
    have h2 : resolveNcore e (resolveNpar e (ensureRequired m)) "ncore" = some SVal.null := by
      unfold resolveNcore
      split_ifs with g1 g2 g3
      · cases h1 ▸ g2
      · cases h1 ▸ g3
      · exact h1
      · exact mset_self _ _ _
    unfold run_settings
    rw [resolveRunLimit_other _ _ (by decide), resolveNcpus_other _ _ _ (by decide), h2]
  · intro h
    have h0 : ensureRequired m "kpar" = some SVal.null := by rw [ensureRequired_kpar, h]; rfl
    unfold run_settings
    rw [resolveRunLimit_other _ _ (by decide), resolveNcpus_other _ _ _ (by decide),
      resolveNcore_other _ _ _ (by decide), resolveNpar_other _ _ _ (by decide), h0]
  · intro h
    have h0 : ensureRequired m "vasp_cmd" = some SVal.null := by
      rw [ensureRequired_vasp_cmd, h]; rfl
    unfold run_settings
    rw [resolveRunLimit_other _ _ (by decide), resolveNcpus_other _ _ _ (by decide),
      resolveNcore_other _ _ _ (by decide), resolveNpar_other _ _ _ (by decide), h0]
  · intro h hnp
    have h0 : ensureRequired m "ncpus" = some SVal.null := by
      rw [ensureRequired_ncpus, h]; rfl
    have h1 : resolveNcore e (resolveNpar e (ensureRequired m)) "ncpus" = some SVal.null := by
      rw [resolveNcore_other _ _ _ (by decide), resolveNpar_other _ _ _ (by decide)]
      exact h0
    have h2 : resolveNcpus e (resolveNcore e (resolveNpar e (ensureRequired m))) "ncpus"
        = some SVal.null := by
      unfold resolveNcpus
      rw [if_pos (Or.inl h1), hnp]
      exact mset_self _ _ _
    unfold run_settings
    rw [resolveRunLimit_other _ _ (by decide), h2]
  · intro h
    have h0 : ensureRequired m "run_limit" = some SVal.null := by
      rw [ensureRequired_run_limit, h]; rfl
    have h1 : resolveNcpus e (resolveNcore e (resolveNpar e (ensureRequired m))) "run_limit"
        = some SVal.null := by
      rw [resolveNcpus_other _ _ _ (by decide), resolveNcore_other _ _ _ (by decide),
        resolveNpar_other _ _ _ (by decide)]
      exact h0
    unfold run_settings
    unfold resolveRunLimit
    rw [if_pos (Or.inl h1), mset_self]

/-- C9 witness: the amended claim at the empty settings file and empty
environment. -/
theorem c9_required_keys_present_defaults_witness :
    (run_settings emptyEnv (ensureRequired emptyMap) "kpar").isSome = true ∧
    run_settings emptyEnv (ensureRequired emptyMap) "npar" = some SVal.null ∧
    run_settings emptyEnv (ensureRequired emptyMap) "ncore" = some SVal.null ∧
    run_settings emptyEnv (ensureRequired emptyMap) "kpar" = some SVal.null ∧
    run_settings emptyEnv (ensureRequired emptyMap) "vasp_cmd" = some SVal.null ∧
    run_settings emptyEnv (ensureRequired emptyMap) "ncpus" = some SVal.null ∧
    run_settings emptyEnv (ensureRequired emptyMap) "run_limit" = some (SVal.num 10) :=
  ⟨(c9_required_keys_present_defaults emptyEnv emptyMap).1 "kpar" (by decide),
   (c9_required_keys_present_defaults emptyEnv emptyMap).2.1 rfl,
   (c9_required_keys_present_defaults emptyEnv emptyMap).2.2.1 rfl,
   (c9_required_keys_present_defaults emptyEnv emptyMap).2.2.2.1 rfl,
   (c9_required_keys_present_defaults emptyEnv emptyMap).2.2.2.2.1 rfl,
   (c9_required_keys_present_defaults emptyEnv emptyMap).2.2.2.2.2.1 rfl rfl,
   (c9_required_keys_present_defaults emptyEnv emptyMap).2.2.2.2.2.2 rfl⟩

/-- C10: in the mapping returned by `run_settings`, at most one of npar and
ncore carries a concrete value: the resolved npar is None or the resolved
ncore is None (whenever npar resolves to a concrete value, ncore is forced
to None); `run_settings` operates on a copy, so the original settings map
is a distinct, unmodified value in this embedding. -/
theorem c10_npar_ncore_exclusive (e : PBSEnv) (m : SettingsMap) :
    run_settings e (ensureRequired m) "npar" = some SVal.null ∨
    run_settings e (ensureRequired m) "ncore" = some SVal.null := by
  set m1 := resolveNpar e (ensureRequired m) with hm1
  unfold run_settings
  rw [resolveRunLimit_other _ _ (by decide), resolveNcpus_other _ _ _ (by decide),
    resolveRunLimit_other _ _ (by decide), resolveNcpus_other _ _ _ (by decide)]
  by_cases h : m1 "npar" = some SVal.null
  · left
    rw [resolveNcore_other _ _ _ (by decide), ← hm1, h]
  · right
    unfold resolveNcore
    rw [if_neg h, mset_self]
